import Mathlib

/-!
Verification development for the youtube-mcp server.

The repository contains two near-duplicate MCP server variants:
`src/main.py` (embedded below in namespace `Main1`) and `src/main_2.py`
(namespace `Main2`).  Each tool operation is embedded as a pure function of

* an `Env` record holding the two configured API keys and oracles for the
  three kinds of upstream collaborators (the captions source, the YouTube
  Data API over HTTP, and the Gemini generation endpoint), and
* the operation's inputs.

Each operation returns a pair: the Python result (`Except String α`, where
`.error m` models a raised `ToolError` with message `m`, i.e. `str(e)`), and
the ordered list of outbound network requests the invocation performed.

Modelling conventions:
* Parsed JSON payloads are `JValue`; provider objects are association lists
  (assumed duplicate-key free, lookup takes the first binding).
* JSON numbers (and caption timestamps) are modelled as exact rationals;
  Python binary floating point may round differently in the third decimal of
  the `:.2f` rendering used by `Main2.transcript_resource`, which no theorem
  below depends on.
* Python exceptions raised while digging into upstream JSON of an unexpected
  shape (`KeyError`, `TypeError`, `IndexError`, `AttributeError`) are
  modelled as `.error` with the Python message for `KeyError` and
  `IndexError`, and an abbreviated message for `TypeError`/`AttributeError`
  (whose exact Python text depends on the runtime type); every such path is
  an error path in both Python and the model, so success-conditioned
  theorems are unaffected.
* `datetime.now().isoformat()` in `Main2.get_transcript` is passed in as an
  explicit `now : String` argument.
* The lazily constructed Gemini client object is always truthy in Python;
  `main_2.py` constructs it at import time iff `GEMINI_API_KEY` is truthy,
  so `if not genai_client` is modelled as truthiness of the key.
-/

/-- Parsed JSON values (Python objects produced by `response.json()` and by
the captions library). -/
inductive JValue where
  | jstr : String → JValue
  | jnum : Rat → JValue
  | jbool : Bool → JValue
  | jnull : JValue
  | jarr : List JValue → JValue
  | jobj : List (String × JValue) → JValue

/-- Key lookup in a JSON object; `none` for non-objects or missing keys. -/
def jlookup : JValue → String → Option JValue
  | .jobj kvs, k => kvs.lookup k
  | _, _ => none

/-- Python `k in v`: key membership for dicts, element membership for lists.
(`in` on a string is a substring test, not modelled: on every such value the
subsequent subscript/`.get` access fails in Python and in the model alike.) -/
def jcontains (v : JValue) (k : String) : Bool :=
  match v with
  | .jobj kvs => (kvs.lookup k).isSome
  | .jarr l => l.any (fun x => match x with | .jstr s => s == k | _ => false)
  | _ => false

/-- Python truthiness of a JSON value. -/
def jtruthy : JValue → Bool
  | .jstr s => !s.isEmpty
  | .jnum q => q ≠ 0
  | .jbool b => b
  | .jnull => false
  | .jarr l => !l.isEmpty
  | .jobj l => !l.isEmpty

/-- Python truthiness of an optional environment string: `None` and `""` are
falsy. -/
def optFalsy : Option String → Bool
  | none => true
  | some s => s.isEmpty

/-- A single-quote character, built without a literal apostrophe. -/
def squote : String := String.singleton (Char.ofNat 39)

/-- `str(KeyError(k))` is the repr of the key. -/
def keyError (k : String) : String := squote ++ k ++ squote

/-- Python `str()` of a JSON value, as used in f-string interpolation.
Exact for strings and integral numbers; abbreviated for the other cases
(no theorem below depends on them). -/
def pyStr : JValue → String
  | .jstr s => s
  | .jnum q => if q.den = 1 then toString q.num else toString q
  | .jbool b => if b then "True" else "False"
  | .jnull => "None"
  | .jarr _ => "[...]"
  | .jobj _ => "\x7b...\x7d"

/-- Python `v[k]` subscript on a parsed-JSON value. -/
def jindex (v : JValue) (k : String) : Except String JValue :=
  match v with
  | .jobj kvs =>
    match kvs.lookup k with
    | some x => .ok x
    | none => .error (keyError k)
  | _ => .error "TypeError: value is not subscriptable by string keys"

/-- Python `v.get(k, d)` on a parsed-JSON value. -/
def jget (v : JValue) (k : String) (d : JValue) : Except String JValue :=
  match v with
  | .jobj kvs => .ok ((kvs.lookup k).getD d)
  | _ => .error "AttributeError: value has no attribute get"

/-- Python `v[i]` on a parsed-JSON value expected to be a list. -/
def jat (v : JValue) (i : Nat) : Except String JValue :=
  match v with
  | .jarr l =>
    match l.get? i with
    | some x => .ok x
    | none => .error "list index out of range"
  | _ => .error "TypeError: value is not index-subscriptable"

/-- Python iteration over a parsed-JSON value expected to be a list. -/
def jelems (v : JValue) : Except String (List JValue) :=
  match v with
  | .jarr l => .ok l
  | _ => .error "TypeError: value is not iterable as a JSON array"

/-- Python `l[i]` on a Python-level list. -/
def pyListGet (l : List JValue) (i : Nat) : Except String JValue :=
  match l.get? i with
  | some x => .ok x
  | none => .error "list index out of range"

/-- `",".join` / `" ".join`: every element must already be a `str`. -/
def asPyStrings : List JValue → Except String (List String)
  | [] => .ok []
  | .jstr s :: rest => (asPyStrings rest).map (fun l => s :: l)
  | _ :: _ => .error "TypeError: sequence item: expected str instance"

/-- One time-coded caption segment, as returned by the captions API
(`YouTubeTranscriptApi.get_transcript`). -/
structure Segment where
  text : String
  start : Rat
  duration : Rat
deriving DecidableEq

/-- The segment dict as it appears inside JSON results passed through. -/
def Segment.toJ (s : Segment) : JValue :=
  .jobj [("text", .jstr s.text), ("start", .jnum s.start),
         ("duration", .jnum s.duration)]

/-- One outbound network request. -/
inductive Request where
  | captions (videoId : String) (languages : List String)
  | searchEndpoint (part q : String) (maxResults : Int) (typeParam key : String)
  | videosEndpoint (part ids key : String)
  | commentThreads (part videoId : String) (maxResults : Int) (key : String)
  | generate (model : String) (contents : JValue)

/-- The process environment and the upstream collaborators (as oracles):
the captions source (`transcriptApi`: result list or `str` of the raised
exception), the YouTube Data API (`http`: the parsed `response.json()`), and
the Gemini endpoint (`genText`: `response.text`, `none` for an absent
payload). -/
structure Env where
  GEMINI_API_KEY : Option String
  YOUTUBE_API_KEY : Option String
  transcriptApi : String → List String → Except String (List Segment)
  http : Request → JValue
  genText : String → JValue → Option String

/-- The `except Exception as e: raise ToolError(f"<prefix>{str(e)}")` wrapper
each tool body runs under. -/
def wrapTool (p : String) (x : Except String α × List Request) :
    Except String α × List Request :=
  (x.1.mapError (fun e => p ++ e), x.2)

/-- `f"YouTube API error: {data['error']['message']}"`: the extraction may
itself raise. -/
def apiErrorMsg (data : JValue) : Except String String := do
  let e ← jindex data "error"
  let m ← jindex e "message"
  .ok (pyStr m)

/-- The `raise ToolError(f"YouTube API error: ...")` path shared by the
YouTube-backed tools. -/
def apiErrorResult (data : JValue) : Except String α :=
  match apiErrorMsg data with
  | .error e => .error e
  | .ok m => .error ("YouTube API error: " ++ m)

namespace Main1

/-- `src/main.py::get_transcript` (tool `youtube/get-transcript`). -/
def get_transcript (env : Env) (video_id : String)
    (languages : List String := ["en"]) :
    Except String (List JValue) × List Request :=
  wrapTool "Transcript error: "
    (match env.transcriptApi video_id languages with
     | .error e => (.error e, [.captions video_id languages])
     | .ok transcript =>
       (.ok [.jobj [("type", .jstr "transcript"),
                    ("data", .jobj [("video_id", .jstr video_id),
                                    ("segments", .jarr (transcript.map Segment.toJ)),
                                    ("languages", .jarr (languages.map JValue.jstr))])]],
        [.captions video_id languages]))

/-- `[t['text'] for t in segments]`. -/
def extractTexts : List JValue → Except String (List JValue)
  | [] => .ok []
  | t :: rest =>
    match jindex t "text" with
    | .error e => .error e
    | .ok x =>
      match extractTexts rest with
      | .error e => .error e
      | .ok xs => .ok (x :: xs)

/-- `" ".join([t['text'] for t in transcript_data[0]['data']['segments']])`. -/
def joinedTranscript (transcript_data : List JValue) : Except String String := do
  let first ← pyListGet transcript_data 0
  let data ← jindex first "data"
  let segs ← jindex data "segments"
  let segl ← jelems segs
  let texts ← extractTexts segl
  let strs ← asPyStrings texts
  .ok (String.intercalate " " strs)

/-- The `contents=[{"role": "user", "parts": [{"text": prompt}]}]` argument
of `generate_content` in `main.py`. -/
def mkContents (prompt : String) : JValue :=
  .jarr [.jobj [("role", .jstr "user"),
                ("parts", .jarr [.jobj [("text", .jstr prompt)]])]]

/-- Body of `src/main.py::summarize_transcript` (inside the `try`). -/
def summarize_core (env : Env) (video_id : String) :
    Except String (List JValue) × List Request :=
  if optFalsy env.GEMINI_API_KEY then
    (.error "GEMINI_API_KEY environment variable is not set", [])
  else
    match get_transcript env video_id ["en"] with
    | (.error e, log) => (.error e, log)
    | (.ok transcript_data, log) =>
      match joinedTranscript transcript_data with
      | .error e => (.error e, log)
      | .ok transcript =>
        let prompt :=
          "Summarize this YouTube video transcript in 3-5 bullet points:\n\n" ++ transcript
        let contents := mkContents prompt
        let log2 := log ++ [.generate "gemini-2.0-flash" contents]
        match env.genText "gemini-2.0-flash" contents with
        | none => (.error "No summary generated - empty response from Gemini", log2)
        | some t =>
          if t.isEmpty then
            (.error "No summary generated - empty response from Gemini", log2)
          else
            (.ok [.jobj [("type", .jstr "summary"),
                         ("data", .jobj [("video_id", .jstr video_id),
                                         ("summary", .jstr t),
                                         ("model", .jstr "gemini-2.0-flash")])]], log2)

/-- `src/main.py::summarize_transcript` (tool `youtube/summarize`). -/
def summarize_transcript (env : Env) (video_id : String) :
    Except String (List JValue) × List Request :=
  wrapTool "Summarization error: " (summarize_core env video_id)

/-- The query prompt f-string of `main.py` (exact text, including the
indentation of the source literal). -/
def queryPromptText (transcript q : String) : String :=
  let sp24 := "                        "
  "The following is a transcript from a YouTube video:\n" ++
  sp24 ++ "Transcript:\n" ++
  sp24 ++ transcript ++ "\n\n" ++
  sp24 ++ "Based only on the information in this transcript, please answer the following question:\n" ++
  sp24 ++ q ++ "\n\n" ++
  sp24 ++ "If the transcript doesn" ++ squote ++ "t contain information to answer this question, please state that clearly.\n" ++
  "                    "

/-- Body of `src/main.py::query_transcript` (inside the `try`). -/
def query_core (env : Env) (video_id q : String) :
    Except String (List JValue) × List Request :=
  if optFalsy env.GEMINI_API_KEY then
    (.error "GEMINI_API_KEY environment variable is not set", [])
  else
    match get_transcript env video_id ["en"] with
    | (.error e, log) => (.error e, log)
    | (.ok transcript_data, log) =>
      match joinedTranscript transcript_data with
      | .error e => (.error e, log)
      | .ok transcript =>
        let contents := mkContents (queryPromptText transcript q)
        let log2 := log ++ [.generate "gemini-2.0-flash" contents]
        match env.genText "gemini-2.0-flash" contents with
        | none => (.error "No response generated - empty response from Gemini", log2)
        | some t =>
          if t.isEmpty then
            (.error "No response generated - empty response from Gemini", log2)
          else
            (.ok [.jobj [("type", .jstr "query-response"),
                         ("data", .jobj [("video_id", .jstr video_id),
                                         ("query", .jstr q),
                                         ("response", .jstr t),
                                         ("model", .jstr "gemini-2.0-flash")])]], log2)

/-- `src/main.py::query_transcript` (tool `youtube/query`). -/
def query_transcript (env : Env) (video_id q : String) :
    Except String (List JValue) × List Request :=
  wrapTool "Query error: " (query_core env video_id q)

/-- `[item['id']['videoId'] for item in search_data.get('items', [])]`. -/
def extractIds : List JValue → Except String (List JValue)
  | [] => .ok []
  | item :: rest =>
    match (jindex item "id").bind (fun idv => jindex idv "videoId") with
    | .error e => .error e
    | .ok vid =>
      match extractIds rest with
      | .error e => .error e
      | .ok xs => .ok (vid :: xs)

/-- Stage-1 candidate extraction from the parsed search response. -/
def stage1_ids (search_data : JValue) : Except String (List JValue) := do
  let items ← jget search_data "items" (.jarr [])
  let l ← jelems items
  extractIds l

/-- The per-item video dict built by `main.py::search_videos` (field access
in the evaluation order of the Python dict literal; `item['snippet']` etc.
are looked up once since repetition returns the same value). -/
def build_video (item : JValue) : Except String JValue := do
  let idv ← jindex item "id"
  let snippet ← jindex item "snippet"
  let title ← jindex snippet "title"
  let description ← jindex snippet "description"
  let thumbs ← jindex snippet "thumbnails"
  let high ← jindex thumbs "high"
  let thumbnail ← jindex high "url"
  let channel_title ← jindex snippet "channelTitle"
  let channel_id ← jindex snippet "channelId"
  let published_at ← jindex snippet "publishedAt"
  let statistics ← jindex item "statistics"
  let views ← jget statistics "viewCount" (.jstr "0")
  let likes ← jget statistics "likeCount" (.jstr "0")
  let comments ← jget statistics "commentCount" (.jstr "0")
  let contentDetails ← jindex item "contentDetails"
  let duration ← jindex contentDetails "duration"
  .ok (.jobj [("id", idv), ("title", title), ("description", description),
              ("thumbnail", thumbnail), ("channel_title", channel_title),
              ("channel_id", channel_id), ("published_at", published_at),
              ("views", views), ("likes", likes), ("comments", comments),
              ("duration", duration)])

/-- The enrichment loop over `videos_data.get('items', [])`. -/
def buildAll : List JValue → Except String (List JValue)
  | [] => .ok []
  | item :: rest =>
    match build_video item with
    | .error e => .error e
    | .ok v =>
      match buildAll rest with
      | .error e => .error e
      | .ok vs => .ok (v :: vs)

/-- Stage-2 processing of the parsed video-detail response. -/
def stage2_videos (videos_data : JValue) : Except String (List JValue) := do
  let items ← jget videos_data "items" (.jarr [])
  let l ← jelems items
  buildAll l

/-- The `search-results` envelope of `main.py`. -/
def searchEnvelope (q : String) (videos : List JValue) : List JValue :=
  [.jobj [("type", .jstr "search-results"),
          ("data", .jobj [("query", .jstr q),
                          ("videos", .jarr videos),
                          ("total_results", .jnum (videos.length : Rat))])]]

/-- Body of `src/main.py::search_videos` (inside the `try`). -/
def search_core (env : Env) (q : String) (max_results : Int) :
    Except String (List JValue) × List Request :=
  if optFalsy env.YOUTUBE_API_KEY then
    (.error "YOUTUBE_API_KEY environment variable is not set", [])
  else
    let key := env.YOUTUBE_API_KEY.getD ""
    let req1 : Request := .searchEndpoint "snippet" q (min max_results 50) "video" key
    let search_data := env.http req1
    if jcontains search_data "error" then
      (apiErrorResult search_data, [req1])
    else
      match stage1_ids search_data with
      | .error e => (.error e, [req1])
      | .ok video_ids =>
        if video_ids.isEmpty then
          (.ok (searchEnvelope q []), [req1])
        else
          match asPyStrings video_ids with
          | .error e => (.error e, [req1])
          | .ok idStrs =>
            let req2 : Request := .videosEndpoint "snippet,statistics,contentDetails"
                                    (String.intercalate "," idStrs) key
            let videos_data := env.http req2
            match stage2_videos videos_data with
            | .error e => (.error e, [req1, req2])
            | .ok videos => (.ok (searchEnvelope q videos), [req1, req2])

/-- `src/main.py::search_videos` (tool `youtube/search`). -/
def search_videos (env : Env) (q : String) (max_results : Int := 5) :
    Except String (List JValue) × List Request :=
  wrapTool "Search error: " (search_core env q max_results)

/-- `[item['snippet']['topLevelComment']['snippet'] for item in items]`. -/
def extractCommentSnippets : List JValue → Except String (List JValue)
  | [] => .ok []
  | item :: rest =>
    match (jindex item "snippet").bind (fun s1 =>
      (jindex s1 "topLevelComment").bind (fun tlc => jindex tlc "snippet")) with
    | .error e => .error e
    | .ok s2 =>
      match extractCommentSnippets rest with
      | .error e => .error e
      | .ok xs => .ok (s2 :: xs)

/-- Body of `src/main.py::get_comments` (inside the `try`). -/
def get_comments_core (env : Env) (video_id : String) (max_comments : Int) :
    Except String (List JValue) × List Request :=
  if optFalsy env.YOUTUBE_API_KEY then
    (.error "YOUTUBE_API_KEY environment variable is not set", [])
  else
    let key := env.YOUTUBE_API_KEY.getD ""
    let req : Request := .commentThreads "snippet" video_id (min max_comments 100) key
    let data := env.http req
    if jcontains data "error" then
      (apiErrorResult data, [req])
    else
      match (do
        let items ← jget data "items" (.jarr [])
        let l ← jelems items
        let cs ← extractCommentSnippets l
        (.ok (cs, l.length) : Except String (List JValue × Nat))) with
      | .error e => (.error e, [req])
      | .ok (cs, n) =>
        (.ok [.jobj [("type", .jstr "comments"),
                     ("data", .jobj [("video_id", .jstr video_id),
                                     ("comments", .jarr cs),
                                     ("total_count", .jnum (n : Rat))])]], [req])

/-- `src/main.py::get_comments` (tool `youtube/get-comments`). -/
def get_comments (env : Env) (video_id : String) (max_comments : Int := 100) :
    Except String (List JValue) × List Request :=
  wrapTool "Comments error: " (get_comments_core env video_id max_comments)

/-- Body of `src/main.py::get_likes` (inside the `try`). -/
def get_likes_core (env : Env) (video_id : String) :
    Except String (List JValue) × List Request :=
  if optFalsy env.YOUTUBE_API_KEY then
    (.error "YOUTUBE_API_KEY environment variable is not set", [])
  else
    let key := env.YOUTUBE_API_KEY.getD ""
    let req : Request := .videosEndpoint "statistics" video_id key
    let data := env.http req
    if jcontains data "error" then
      (apiErrorResult data, [req])
    else
      match jget data "items" .jnull with
      | .error e => (.error e, [req])
      | .ok itemsv =>
        if !(jtruthy itemsv) then
          (.error ("Video not found: " ++ video_id), [req])
        else
          match (do
            let items ← jindex data "items"
            let first ← jat items 0
            let stats ← jindex first "statistics"
            jget stats "likeCount" (.jnum 0)) with
          | .error e => (.error e, [req])
          | .ok likes =>
            (.ok [.jobj [("type", .jstr "stats"),
                         ("data", .jobj [("video_id", .jstr video_id),
                                         ("likes", likes)])]], [req])

/-- `src/main.py::get_likes` (tool `youtube/get-likes`). -/
def get_likes (env : Env) (video_id : String) :
    Except String (List JValue) × List Request :=
  wrapTool "Likes error: " (get_likes_core env video_id)

end Main1

/-- Python `f"{x:.2f}"` on an exact rational: fixed-point, two decimals,
ties rounded half-to-even (the decimal value of a binary float is almost
never an exact tie, see the module comment). -/
def fmt2 (q : Rat) : String :=
  let sign := if q < 0 then "-" else ""
  let a : Rat := |q|
  let scaled : Rat := a * 100
  let fl : Int := ⌊scaled⌋
  let frac : Rat := scaled - (fl : Rat)
  let n : Int :=
    if frac > 1/2 then fl + 1
    else if frac < 1/2 then fl
    else if fl % 2 = 0 then fl else fl + 1
  let ip := n / 100
  let fp := n % 100
  sign ++ toString ip ++ "." ++ (if fp < 10 then "0" else "") ++ toString fp

namespace Main2

/-- The per-segment line `f"[{t['start']:.2f}-{t['start']+t['duration']:.2f}] {t['text']}"`. -/
def segLine (t : Segment) : String :=
  "[" ++ fmt2 t.start ++ "-" ++ fmt2 (t.start + t.duration) ++ "] " ++ t.text

/-- `src/main_2.py::transcript_resource` (resource
`youtube/transcripts/{video_id}`); raises `ValueError` on failure. -/
def transcript_resource (env : Env) (video_id : String) :
    Except String String × List Request :=
  match env.transcriptApi video_id ["en"] with
  | .error e =>
    (.error ("Failed to retrieve transcript: " ++ e), [.captions video_id ["en"]])
  | .ok transcript =>
    (.ok (String.intercalate "\n" (transcript.map segLine)), [.captions video_id ["en"]])

/-- The metadata f-string body of `main_2.py::video_metadata_resource`
(inside the `try`; the early `return`s of strings are `.ok`, raised
exceptions are `.error`). -/
def metadata_body (data : JValue) (video_id : String) : Except String String :=
  if jcontains data "error" then
    (apiErrorMsg data).map (fun m => "YouTube API error: " ++ m)
  else do
    let itemsv ← jget data "items" .jnull
    if !(jtruthy itemsv) then
      .ok ("No video found with ID: " ++ video_id)
    else do
      let items ← jindex data "items"
      let item ← jat items 0
      let snippet ← jindex item "snippet"
      let title ← jindex snippet "title"
      let channel ← jindex snippet "channelTitle"
      let published ← jindex snippet "publishedAt"
      let description ← jindex snippet "description"
      let contentDetails ← jindex item "contentDetails"
      let duration ← jindex contentDetails "duration"
      let statistics ← jindex item "statistics"
      let views ← jget statistics "viewCount" (.jstr "0")
      let likes ← jget statistics "likeCount" (.jstr "0")
      let comments ← jget statistics "commentCount" (.jstr "0")
      .ok ("\n            Title: " ++ pyStr title ++
           "\n            Channel: " ++ pyStr channel ++
           "\n            Published: " ++ pyStr published ++
           "\n            Description: " ++ pyStr description ++
           "\n            Duration: " ++ pyStr duration ++
           "\n            Views: " ++ pyStr views ++
           "\n            Likes: " ++ pyStr likes ++
           "\n            Comments: " ++ pyStr comments ++
           "\n        ")

/-- `src/main_2.py::video_metadata_resource` (resource
`youtube/video/{video_id}`); never raises — all failures come back as
strings. -/
def video_metadata_resource (env : Env) (video_id : String) :
    String × List Request :=
  if optFalsy env.YOUTUBE_API_KEY then
    ("YouTube API key not configured", [])
  else
    let key := env.YOUTUBE_API_KEY.getD ""
    let req : Request := .videosEndpoint "snippet,statistics,contentDetails" video_id key
    let data := env.http req
    match metadata_body data video_id with
    | .error e => ("Error retrieving video metadata: " ++ e, [req])
    | .ok s => (s, [req])

/-- `src/main_2.py::summary_prompt` (prompt `youtube/summarize`); total —
its `except` turns the transcript failure into a string. -/
def summary_prompt (env : Env) (video_id : String) : String × List Request :=
  match transcript_resource env video_id with
  | (.error e, log) => ("Error creating summary prompt: " ++ e, log)
  | (.ok transcript, log) =>
    let m := video_metadata_resource env video_id
    ("Summarize this YouTube video based on its transcript:\n\n" ++ m.1 ++
     "\n\nTranscript:\n" ++ transcript ++
     "\n\nPlease provide:\n1. A concise 2-3 sentence summary\n2. 3-5 key points in bullet form\n3. Any technical details mentioned\n4. The main takeaways from this video\n",
     log ++ m.2)

/-- `src/main_2.py::query_prompt` (prompt `youtube/query`). -/
def query_prompt (env : Env) (video_id q : String) : String × List Request :=
  match transcript_resource env video_id with
  | (.error e, log) => ("Error creating query prompt: " ++ e, log)
  | (.ok transcript, log) =>
    let m := video_metadata_resource env video_id
    ("Answer this question based ONLY on the content of this YouTube video:\n\n" ++ m.1 ++
     "\n\nQuestion: " ++ q ++
     "\n\nTranscript:\n" ++ transcript ++
     "\n\nIf the transcript doesn" ++ squote ++ "t contain information to answer this question, please state that clearly.\n",
     log ++ m.2)

/-- `src/main_2.py::get_transcript` (tool `youtube/get-transcript`); `now`
is `datetime.now().isoformat()`. -/
def get_transcript (env : Env) (video_id : String) (languages : List String)
    (now : String) : Except String JValue × List Request :=
  match env.transcriptApi video_id languages with
  | .error e =>
    (.error ("Failed to retrieve transcript: " ++ e), [.captions video_id languages])
  | .ok transcript =>
    (.ok (.jobj [("video_id", .jstr video_id),
                 ("segments", .jarr (transcript.map Segment.toJ)),
                 ("languages", .jarr (languages.map JValue.jstr)),
                 ("retrieved_at", .jstr now)]),
     [.captions video_id languages])

/-- Body of `src/main_2.py::summarize_transcript` (inside the `try`). -/
def summarize_core (env : Env) (video_id : String) :
    Except String JValue × List Request :=
  let p := summary_prompt env video_id
  if optFalsy env.GEMINI_API_KEY then
    (.error "GEMINI_API_KEY environment variable is not set or client not initialized", p.2)
  else
    let contents := JValue.jstr p.1
    let log2 := p.2 ++ [.generate "gemini-2.0-flash" contents]
    match env.genText "gemini-2.0-flash" contents with
    | none => (.error "No summary generated - empty response from Gemini", log2)
    | some t =>
      if t.isEmpty then
        (.error "No summary generated - empty response from Gemini", log2)
      else
        (.ok (.jobj [("video_id", .jstr video_id), ("summary", .jstr t),
                     ("model", .jstr "gemini-2.0-flash")]), log2)

/-- `src/main_2.py::summarize_transcript` (tool `youtube/summarize`). -/
def summarize_transcript (env : Env) (video_id : String) :
    Except String JValue × List Request :=
  wrapTool "Summarization failed: " (summarize_core env video_id)

/-- Body of `src/main_2.py::query_transcript` (inside the `try`). -/
def query_core (env : Env) (video_id q : String) :
    Except String JValue × List Request :=
  let p := query_prompt env video_id q
  if optFalsy env.GEMINI_API_KEY then
    (.error "GEMINI_API_KEY environment variable is not set or client not initialized", p.2)
  else
    let contents := JValue.jstr p.1
    let log2 := p.2 ++ [.generate "gemini-2.0-flash" contents]
    match env.genText "gemini-2.0-flash" contents with
    | none => (.error "No response generated - empty response from Gemini", log2)
    | some t =>
      if t.isEmpty then
        (.error "No response generated - empty response from Gemini", log2)
      else
        (.ok (.jobj [("video_id", .jstr video_id), ("query", .jstr q),
                     ("response", .jstr t),
                     ("model", .jstr "gemini-2.0-flash")]), log2)

/-- `src/main_2.py::query_transcript` (tool `youtube/query`). -/
def query_transcript (env : Env) (video_id q : String) :
    Except String JValue × List Request :=
  wrapTool "Query failed: " (query_core env video_id q)

/-- The per-item video dict built by `main_2.py::search_videos`. -/
def build_video (item : JValue) : Except String JValue := do
  let idv ← jindex item "id"
  let snippet ← jindex item "snippet"
  let title ← jindex snippet "title"
  let description ← jindex snippet "description"
  let statistics ← jindex item "statistics"
  let views ← jget statistics "viewCount" (.jstr "0")
  let likes ← jget statistics "likeCount" (.jstr "0")
  let comments ← jget statistics "commentCount" (.jstr "0")
  let contentDetails ← jindex item "contentDetails"
  let duration ← jindex contentDetails "duration"
  let channel_title ← jindex snippet "channelTitle"
  let channel_id ← jindex snippet "channelId"
  let published_at ← jindex snippet "publishedAt"
  .ok (.jobj [("id", idv), ("title", title), ("description", description),
              ("stats", .jobj [("views", views), ("likes", likes),
                               ("comments", comments)]),
              ("duration", duration),
              ("channel", .jobj [("title", channel_title), ("id", channel_id)]),
              ("published_at", published_at)])

/-- The enrichment loop over `videos_data.get('items', [])` in `main_2.py`. -/
def buildAll : List JValue → Except String (List JValue)
  | [] => .ok []
  | item :: rest =>
    match build_video item with
    | .error e => .error e
    | .ok v =>
      match buildAll rest with
      | .error e => .error e
      | .ok vs => .ok (v :: vs)

/-- Stage-2 processing of the parsed video-detail response in `main_2.py`. -/
def stage2_videos (videos_data : JValue) : Except String (List JValue) := do
  let items ← jget videos_data "items" (.jarr [])
  let l ← jelems items
  buildAll l

/-- The search result object of `main_2.py` (no envelope wrapper). -/
def searchResult (q : String) (videos : List JValue) : JValue :=
  .jobj [("query", .jstr q),
         ("videos", .jarr videos),
         ("total_results", .jnum (videos.length : Rat))]

/-- Body of `src/main_2.py::search_videos` (inside the `try`). -/
def search_core (env : Env) (q : String) (max_results : Int) :
    Except String JValue × List Request :=
  if optFalsy env.YOUTUBE_API_KEY then
    (.error "YOUTUBE_API_KEY environment variable is not set", [])
  else
    let key := env.YOUTUBE_API_KEY.getD ""
    let req1 : Request := .searchEndpoint "snippet" q (min max_results 50) "video" key
    let search_data := env.http req1
    if jcontains search_data "error" then
      (apiErrorResult search_data, [req1])
    else
      match Main1.stage1_ids search_data with
      | .error e => (.error e, [req1])
      | .ok video_ids =>
        if video_ids.isEmpty then
          (.ok (searchResult q []), [req1])
        else
          match asPyStrings video_ids with
          | .error e => (.error e, [req1])
          | .ok idStrs =>
            let req2 : Request := .videosEndpoint "snippet,statistics,contentDetails"
                                    (String.intercalate "," idStrs) key
            let videos_data := env.http req2
            match stage2_videos videos_data with
            | .error e => (.error e, [req1, req2])
            | .ok videos => (.ok (searchResult q videos), [req1, req2])

/-- `src/main_2.py::search_videos` (tool `youtube/search`). -/
def search_videos (env : Env) (q : String) (max_results : Int := 5) :
    Except String JValue × List Request :=
  wrapTool "Search failed: " (search_core env q max_results)

/-- The per-comment dict built by `main_2.py::get_comments` (the repeated
`item['snippet']['topLevelComment']['snippet']` chains return the same
value, looked up once here). -/
def build_comment (item : JValue) : Except String JValue := do
  let s1 ← jindex item "snippet"
  let tlc ← jindex s1 "topLevelComment"
  let s2 ← jindex tlc "snippet"
  let author ← jindex s2 "authorDisplayName"
  let text ← jindex s2 "textDisplay"
  let published_at ← jindex s2 "publishedAt"
  let likes ← jindex s2 "likeCount"
  .ok (.jobj [("author", author), ("text", text),
              ("published_at", published_at), ("likes", likes)])

/-- The comment-building loop of `main_2.py`. -/
def buildComments : List JValue → Except String (List JValue)
  | [] => .ok []
  | item :: rest =>
    match build_comment item with
    | .error e => .error e
    | .ok c =>
      match buildComments rest with
      | .error e => .error e
      | .ok cs => .ok (c :: cs)

/-- Body of `src/main_2.py::get_comments` (inside the `try`). -/
def get_comments_core (env : Env) (video_id : String) (max_comments : Int) :
    Except String JValue × List Request :=
  if optFalsy env.YOUTUBE_API_KEY then
    (.error "YOUTUBE_API_KEY environment variable is not set", [])
  else
    let key := env.YOUTUBE_API_KEY.getD ""
    let req : Request := .commentThreads "snippet" video_id (min max_comments 100) key
    let data := env.http req
    if jcontains data "error" then
      (apiErrorResult data, [req])
    else
      match (do
        let items ← jget data "items" (.jarr [])
        let l ← jelems items
        buildComments l) with
      | .error e => (.error e, [req])
      | .ok cs =>
        (.ok (.jobj [("video_id", .jstr video_id), ("comments", .jarr cs)]), [req])

/-- `src/main_2.py::get_comments` (tool `youtube/get-comments`). -/
def get_comments (env : Env) (video_id : String) (max_comments : Int := 100) :
    Except String JValue × List Request :=
  wrapTool "Failed to get comments: " (get_comments_core env video_id max_comments)

end Main2

/-! ## Observation helpers -/

/-- The `type` tag of a `main.py`-style result (a list of envelopes). -/
def envType (r : List JValue) : Option JValue :=
  r.head?.bind (fun v => jlookup v "type")

/-- Whether a value is a JSON object. -/
def jIsObj : JValue → Bool
  | .jobj _ => true
  | _ => false

/-- A field of the `data` payload of a `main.py`-style result. -/
def dataField (r : List JValue) (k : String) : Option JValue :=
  (r.head?.bind (fun v => jlookup v "data")).bind (fun d => jlookup d k)

/-- A statistics sub-field of a video-detail item. -/
def statField (item : JValue) (k : String) : Option JValue :=
  (jlookup item "statistics").bind (fun s => jlookup s k)

/-- A field nested one object deep (`r[k1][k2]`). -/
def nestedField (r : JValue) (k1 k2 : String) : Option JValue :=
  (jlookup r k1).bind (fun s => jlookup s k2)

/-- The first element of a response's `items` list. -/
def jheadArr : JValue → Option JValue
  | .jarr l => l.head?
  | _ => none

def firstItem (data : JValue) : Option JValue :=
  (jlookup data "items").bind jheadArr

/-- Length of a response's `items` list (0 when absent or not a list). -/
def itemsLen (data : JValue) : Nat :=
  match jlookup data "items" with
  | some (.jarr l) => l.length
  | _ => 0

/-- Length of the `videos` list of a search-result object. -/
def videosLen (d : JValue) : Nat :=
  match jlookup d "videos" with
  | some (.jarr l) => l.length
  | _ => 0

/-- The `total_results` field equals the length of the `videos` field (both
present). -/
def totalMatchesLen (d : JValue) : Prop :=
  match jlookup d "videos", jlookup d "total_results" with
  | some (.jarr l), some t => t = .jnum (l.length : Rat)
  | _, _ => False

/-- `totalMatchesLen` of the `data` payload of a `main.py`-style result. -/
def totalMatchesLen1 (r : List JValue) : Prop :=
  match r.head?.bind (fun v => jlookup v "data") with
  | some d => totalMatchesLen d
  | none => False

/-- `videosLen` of the `data` payload of a `main.py`-style result. -/
def videosLen1 (r : List JValue) : Nat :=
  match r.head?.bind (fun v => jlookup v "data") with
  | some d => videosLen d
  | none => 0

/-- Whether an outbound request is a generation (Gemini) call. -/
def isGenerate : Request → Bool
  | .generate _ _ => true
  | _ => false

/-! ## Concrete sample environments and results (used by witnesses) -/

/-- A fully-working environment: both keys set, a two-segment English
transcript, an upstream that answers every HTTP request with `{}`, and a
generation endpoint that always answers `"- point one"`. -/
def envBase : Env :=
  { GEMINI_API_KEY := some "g", YOUTUBE_API_KEY := some "k",
    transcriptApi := fun _ _ => .ok [⟨"Hello", 0, 1⟩, ⟨"world", 1, 1⟩],
    http := fun _ => .jobj [],
    genText := fun _ _ => some "- point one" }

/-- Like `envBase`, but the video-detail endpoint returns one item whose
`statistics` object is empty. -/
def envLikes : Env :=
  { envBase with
    http := fun _ => .jobj [("items", .jarr [.jobj [("statistics", .jobj [])]])] }

/-- Like `envBase`, but the video-detail endpoint returns an empty `items`
list. -/
def envEmptyItems : Env :=
  { envBase with http := fun _ => .jobj [("items", .jarr [])] }

/-- No credentials configured at all. -/
def envNoGem : Env :=
  { envBase with GEMINI_API_KEY := none, YOUTUBE_API_KEY := none }

/-- The captions source raises. -/
def envErrT : Env :=
  { envBase with transcriptApi := fun _ _ => .error "no element found" }

/-- Like `envBase` in its captions behaviour, different in everything
else. -/
def envOther : Env :=
  { envBase with
    GEMINI_API_KEY := none
    YOUTUBE_API_KEY := none
    http := fun _ => .jnull
    genText := fun _ _ => none }

/-- `main.py` `get-transcript` result at `envBase`. -/
def m1rt : List JValue :=
  [.jobj [("type", .jstr "transcript"),
          ("data", .jobj [("video_id", .jstr "abc"),
                          ("segments", .jarr [Segment.toJ ⟨"Hello", 0, 1⟩,
                                              Segment.toJ ⟨"world", 1, 1⟩]),
                          ("languages", .jarr [.jstr "en"])])]]

/-- `main.py` `summarize` result at `envBase`. -/
def m1rs : List JValue :=
  [.jobj [("type", .jstr "summary"),
          ("data", .jobj [("video_id", .jstr "abc"),
                          ("summary", .jstr "- point one"),
                          ("model", .jstr "gemini-2.0-flash")])]]

/-- `main.py` `query` result at `envBase`. -/
def m1rq : List JValue :=
  [.jobj [("type", .jstr "query-response"),
          ("data", .jobj [("video_id", .jstr "abc"),
                          ("query", .jstr "what"),
                          ("response", .jstr "- point one"),
                          ("model", .jstr "gemini-2.0-flash")])]]

/-- `main.py` `search` result at `envBase` (no candidates). -/
def m1rse : List JValue := Main1.searchEnvelope "q" []

/-- `main.py` `get-comments` result at `envBase` (no items). -/
def m1rc : List JValue :=
  [.jobj [("type", .jstr "comments"),
          ("data", .jobj [("video_id", .jstr "abc"),
                          ("comments", .jarr []),
                          ("total_count", .jnum 0)])]]

/-- `main.py` `get-likes` result at `envLikes`. -/
def m1rl : List JValue :=
  [.jobj [("type", .jstr "stats"),
          ("data", .jobj [("video_id", .jstr "abc"), ("likes", .jnum 0)])]]

/-- `main_2.py` `get-transcript` result at `envBase`. -/
def m2rt : JValue :=
  .jobj [("video_id", .jstr "abc"),
         ("segments", .jarr [Segment.toJ ⟨"Hello", 0, 1⟩,
                             Segment.toJ ⟨"world", 1, 1⟩]),
         ("languages", .jarr [.jstr "en"]),
         ("retrieved_at", .jstr "T0")]

/-- `main_2.py` `summarize` result at `envBase`. -/
def m2rs : JValue :=
  .jobj [("video_id", .jstr "abc"), ("summary", .jstr "- point one"),
         ("model", .jstr "gemini-2.0-flash")]

/-- `main_2.py` `query` result at `envBase`. -/
def m2rq : JValue :=
  .jobj [("video_id", .jstr "abc"), ("query", .jstr "what"),
         ("response", .jstr "- point one"),
         ("model", .jstr "gemini-2.0-flash")]

/-- `main_2.py` `search` result at `envBase` (no candidates). -/
def m2rse : JValue := Main2.searchResult "q" []

/-- `main_2.py` `get-comments` result at `envBase` (no items). -/
def m2rc : JValue := .jobj [("video_id", .jstr "abc"), ("comments", .jarr [])]

/-- A video-detail item whose `statistics` object is empty. -/
def item0 : JValue :=
  .jobj [("id", .jstr "x"),
         ("snippet", .jobj [("title", .jstr "T"), ("description", .jstr "D"),
            ("thumbnails", .jobj [("high", .jobj [("url", .jstr "U")])]),
            ("channelTitle", .jstr "CT"), ("channelId", .jstr "CI"),
            ("publishedAt", .jstr "P")]),
         ("statistics", .jobj []),
         ("contentDetails", .jobj [("duration", .jstr "PT1M")])]

/-- `main.py`'s enrichment of `item0`. -/
def item0r1 : JValue :=
  .jobj [("id", .jstr "x"), ("title", .jstr "T"), ("description", .jstr "D"),
         ("thumbnail", .jstr "U"), ("channel_title", .jstr "CT"),
         ("channel_id", .jstr "CI"), ("published_at", .jstr "P"),
         ("views", .jstr "0"), ("likes", .jstr "0"), ("comments", .jstr "0"),
         ("duration", .jstr "PT1M")]

/-- `main_2.py`'s enrichment of `item0`. -/
def item0r2 : JValue :=
  .jobj [("id", .jstr "x"), ("title", .jstr "T"), ("description", .jstr "D"),
         ("stats", .jobj [("views", .jstr "0"), ("likes", .jstr "0"),
                          ("comments", .jstr "0")]),
         ("duration", .jstr "PT1M"),
         ("channel", .jobj [("title", .jstr "CT"), ("id", .jstr "CI")]),
         ("published_at", .jstr "P")]

/-! ## Basic lemmas -/

theorem mapError_eq_ok {α : Type} {f : String → String} {x : Except String α}
    {a : α} : x.mapError f = .ok a ↔ x = .ok a := by
  cases x <;> simp [Except.mapError]

theorem wrapTool_fst (p : String) (x : Except String α × List Request) :
    (wrapTool p x).1 = x.1.mapError (fun e => p ++ e) := rfl

theorem wrapTool_snd (p : String) (x : Except String α × List Request) :
    (wrapTool p x).2 = x.2 := rfl

theorem except_bind_ok {α β : Type} {x : Except String α}
    {f : α → Except String β} {b : β} :
    (x >>= f) = .ok b ↔ ∃ a, x = .ok a ∧ f a = .ok b := by
  cases x <;> simp [Bind.bind, Except.bind]

theorem jindex_eq_ok {v : JValue} {k : String} {x : JValue} :
    jindex v k = .ok x ↔ jlookup v k = some x := by
  cases v
  case jobj kvs =>
    simp only [jindex, jlookup]
    cases h : kvs.lookup k <;> simp
  all_goals simp [jindex, jlookup]

theorem jget_of_lookup {v : JValue} {k : String} {d x : JValue}
    (h : jlookup v k = some x) : jget v k d = .ok x := by
  cases v
  case jobj kvs =>
    simp only [jlookup] at h
    simp [jget, h]
  all_goals exact absurd h (by simp [jlookup])

theorem jget_ok_none {v : JValue} {k : String} {d x : JValue}
    (h : jget v k d = .ok x) (hn : jlookup v k = none) : x = d := by
  cases v
  case jobj kvs =>
    simp only [jget] at h
    simp only [jlookup] at hn
    injection h with h
    rw [hn] at h
    exact h.symm
  all_goals exact Except.noConfusion h

theorem jat_zero_head {v : JValue} {x : JValue} (h : jat v 0 = .ok x) :
    jheadArr v = some x := by
  cases v
  case jarr l =>
    simp only [jat] at h
    cases hl : l.get? 0 with
    | none => rw [hl] at h; exact Except.noConfusion h
    | some y =>
      rw [hl] at h
      injection h with h
      subst h
      cases l <;> simp_all [jheadArr]
  all_goals exact Except.noConfusion h

theorem asPyStrings_jstr (l : List String) :
    asPyStrings (l.map JValue.jstr) = .ok l := by
  induction l with
  | nil => rfl
  | cons a t ih => simp [asPyStrings, ih, Except.map]

theorem asPyStrings_length {l : List JValue} {s : List String}
    (h : asPyStrings l = .ok s) : s.length = l.length := by
  induction l generalizing s with
  | nil =>
    simp only [asPyStrings] at h
    injection h with h
    subst h; rfl
  | cons a t ih =>
    cases a
    case jstr str =>
      simp only [asPyStrings] at h
      cases ht : asPyStrings t with
      | error e => rw [ht] at h; exact Except.noConfusion h
      | ok s1 =>
        rw [ht] at h
        simp only [Except.map] at h
        injection h with h
        subst h
        simp [ih ht]
    all_goals (simp [asPyStrings] at h)

namespace Main1

theorem get_transcript_ok_shape (env : Env) (v : String) (ls : List String)
    (r : List JValue) (h : (get_transcript env v ls).1 = .ok r) :
    r.length = 1 ∧ envType r = some (.jstr "transcript") := by
  unfold get_transcript at h
  rw [wrapTool_fst, mapError_eq_ok] at h
  cases ht : env.transcriptApi v ls with
  | error e => rw [ht] at h; simp at h
  | ok transcript =>
    rw [ht] at h
    simp only [] at h
    cases h
    exact ⟨rfl, rfl⟩

theorem summarize_ok_shape (env : Env) (v : String) (r : List JValue)
    (h : (summarize_transcript env v).1 = .ok r) :
    r.length = 1 ∧ envType r = some (.jstr "summary") := by
  unfold summarize_transcript at h
  rw [wrapTool_fst, mapError_eq_ok] at h
  unfold summarize_core at h
  iterate 8 (all_goals try (first | (split at h) | (simp only [] at h; split at h)))
  all_goals try (unfold apiErrorResult at h; split at h)
  all_goals try simp only [] at h
  all_goals try exact Except.noConfusion h
  all_goals injection h with h
  all_goals (subst h; exact ⟨rfl, rfl⟩)

theorem query_ok_shape (env : Env) (v q : String) (r : List JValue)
    (h : (query_transcript env v q).1 = .ok r) :
    r.length = 1 ∧ envType r = some (.jstr "query-response") := by
  unfold query_transcript at h
  rw [wrapTool_fst, mapError_eq_ok] at h
  unfold query_core at h
  iterate 8 (all_goals try (first | (split at h) | (simp only [] at h; split at h)))
  all_goals try (unfold apiErrorResult at h; split at h)
  all_goals try simp only [] at h
  all_goals try exact Except.noConfusion h
  all_goals injection h with h
  all_goals (subst h; exact ⟨rfl, rfl⟩)

theorem search_ok_shape (env : Env) (q : String) (mr : Int) (r : List JValue)
    (h : (search_videos env q mr).1 = .ok r) :
    r.length = 1 ∧ envType r = some (.jstr "search-results") := by
  unfold search_videos at h
  rw [wrapTool_fst, mapError_eq_ok] at h
  unfold search_core at h
  iterate 8 (all_goals try (first | (split at h) | (simp only [] at h; split at h)))
  all_goals try (unfold apiErrorResult at h; split at h)
  all_goals try simp only [] at h
  all_goals try exact Except.noConfusion h
  all_goals injection h with h
  all_goals (subst h; exact ⟨rfl, rfl⟩)

theorem get_comments_ok_shape (env : Env) (v : String) (m : Int)
    (r : List JValue) (h : (get_comments env v m).1 = .ok r) :
    r.length = 1 ∧ envType r = some (.jstr "comments") := by
  unfold get_comments at h
  rw [wrapTool_fst, mapError_eq_ok] at h
  unfold get_comments_core at h
  iterate 8 (all_goals try (first | (split at h) | (simp only [] at h; split at h)))
  all_goals try (unfold apiErrorResult at h; split at h)
  all_goals try simp only [] at h
  all_goals try exact Except.noConfusion h
  all_goals injection h with h
  all_goals (subst h; exact ⟨rfl, rfl⟩)

theorem get_likes_ok_shape (env : Env) (v : String) (r : List JValue)
    (h : (get_likes env v).1 = .ok r) :
    r.length = 1 ∧ envType r = some (.jstr "stats") := by
  unfold get_likes at h
  rw [wrapTool_fst, mapError_eq_ok] at h
  unfold get_likes_core at h
  iterate 8 (all_goals try (first | (split at h) | (simp only [] at h; split at h)))
  all_goals try (unfold apiErrorResult at h; split at h)
  all_goals try simp only [] at h
  all_goals try exact Except.noConfusion h
  all_goals injection h with h
  all_goals (subst h; exact ⟨rfl, rfl⟩)

end Main1

namespace Main2

theorem get_transcript_ok_shape2 (env : Env) (v : String) (ls : List String)
    (now : String) (r : JValue) (h : (get_transcript env v ls now).1 = .ok r) :
    jlookup r "type" = none ∧ jIsObj r = true := by
  unfold get_transcript at h
  cases ht : env.transcriptApi v ls with
  | error e => rw [ht] at h; simp at h
  | ok transcript =>
    rw [ht] at h
    simp only [] at h
    cases h
    exact ⟨rfl, rfl⟩

theorem summarize_ok_shape2 (env : Env) (v : String) (r : JValue)
    (h : (summarize_transcript env v).1 = .ok r) :
    jlookup r "type" = none ∧ jIsObj r = true := by
  unfold summarize_transcript at h
  rw [wrapTool_fst, mapError_eq_ok] at h
  unfold summarize_core at h
  iterate 8 (all_goals try (first | (split at h) | (simp only [] at h; split at h)))
  all_goals try (unfold apiErrorResult at h; split at h)
  all_goals try simp only [] at h
  all_goals try exact Except.noConfusion h
  all_goals injection h with h
  all_goals (subst h; exact ⟨rfl, rfl⟩)

theorem query_ok_shape2 (env : Env) (v q : String) (r : JValue)
    (h : (query_transcript env v q).1 = .ok r) :
    jlookup r "type" = none ∧ jIsObj r = true := by
  unfold query_transcript at h
  rw [wrapTool_fst, mapError_eq_ok] at h
  unfold query_core at h
  iterate 8 (all_goals try (first | (split at h) | (simp only [] at h; split at h)))
  all_goals try (unfold apiErrorResult at h; split at h)
  all_goals try simp only [] at h
  all_goals try exact Except.noConfusion h
  all_goals injection h with h
  all_goals (subst h; exact ⟨rfl, rfl⟩)

theorem search_ok_shape2 (env : Env) (q : String) (mr : Int) (r : JValue)
    (h : (search_videos env q mr).1 = .ok r) :
    jlookup r "type" = none ∧ jIsObj r = true := by
  unfold search_videos at h
  rw [wrapTool_fst, mapError_eq_ok] at h
  unfold search_core at h
  iterate 8 (all_goals try (first | (split at h) | (simp only [] at h; split at h)))
  all_goals try (unfold apiErrorResult at h; split at h)
  all_goals try simp only [] at h
  all_goals try exact Except.noConfusion h
  all_goals injection h with h
  all_goals (subst h; exact ⟨rfl, rfl⟩)

theorem get_comments_ok_shape2 (env : Env) (v : String) (m : Int) (r : JValue)
    (h : (get_comments env v m).1 = .ok r) :
    jlookup r "type" = none ∧ jIsObj r = true := by
  unfold get_comments at h
  rw [wrapTool_fst, mapError_eq_ok] at h
  unfold get_comments_core at h
  iterate 8 (all_goals try (first | (split at h) | (simp only [] at h; split at h)))
  all_goals try (unfold apiErrorResult at h; split at h)
  all_goals try simp only [] at h
  all_goals try exact Except.noConfusion h
  all_goals injection h with h
  all_goals (subst h; exact ⟨rfl, rfl⟩)

end Main2

/-! ## Claims -/

/-- Claim C1 (corrected): the claim asserts that in both variants every
successful tool result carries a `type` field matching the operation.  In
`main_2.py` this fails: here a successful `get-transcript` invocation
returns a single object with no `type` field at all. -/
theorem C1_counterexample :
    (Main2.get_transcript envBase "abc" ["en"] "T0").1 = .ok m2rt ∧
    jlookup m2rt "type" = none :=
  ⟨rfl, rfl⟩

/-- Claim C1 (amended): in the `main.py` variant, every successful tool
invocation returns exactly one envelope — a single-element list whose sole
element carries a `type` field equal to the operation's tag ("transcript",
"summary", "query-response", "search-results", "comments", "stats"); in the
`main_2.py` variant, every successful tool invocation returns a single JSON
object, but with no `type` field. -/
theorem C1_envelope :
    (∀ env v ls r, (Main1.get_transcript env v ls).1 = .ok r →
       r.length = 1 ∧ envType r = some (.jstr "transcript")) ∧
    (∀ env v r, (Main1.summarize_transcript env v).1 = .ok r →
       r.length = 1 ∧ envType r = some (.jstr "summary")) ∧
    (∀ env v q r, (Main1.query_transcript env v q).1 = .ok r →
       r.length = 1 ∧ envType r = some (.jstr "query-response")) ∧
    (∀ env q mr r, (Main1.search_videos env q mr).1 = .ok r →
       r.length = 1 ∧ envType r = some (.jstr "search-results")) ∧
    (∀ env v m r, (Main1.get_comments env v m).1 = .ok r →
       r.length = 1 ∧ envType r = some (.jstr "comments")) ∧
    (∀ env v r, (Main1.get_likes env v).1 = .ok r →
       r.length = 1 ∧ envType r = some (.jstr "stats")) ∧
    (∀ env v ls now r, (Main2.get_transcript env v ls now).1 = .ok r →
       jlookup r "type" = none ∧ jIsObj r = true) ∧
    (∀ env v r, (Main2.summarize_transcript env v).1 = .ok r →
       jlookup r "type" = none ∧ jIsObj r = true) ∧
    (∀ env v q r, (Main2.query_transcript env v q).1 = .ok r →
       jlookup r "type" = none ∧ jIsObj r = true) ∧
    (∀ env q mr r, (Main2.search_videos env q mr).1 = .ok r →
       jlookup r "type" = none ∧ jIsObj r = true) ∧
    (∀ env v m r, (Main2.get_comments env v m).1 = .ok r →
       jlookup r "type" = none ∧ jIsObj r = true) :=
  ⟨Main1.get_transcript_ok_shape, Main1.summarize_ok_shape,
   Main1.query_ok_shape, Main1.search_ok_shape, Main1.get_comments_ok_shape,
   Main1.get_likes_ok_shape, Main2.get_transcript_ok_shape2,
   Main2.summarize_ok_shape2, Main2.query_ok_shape2, Main2.search_ok_shape2,
   Main2.get_comments_ok_shape2⟩

/-- Witness for C1: the envelope property instantiated at concrete
invocations of all eleven operations. -/
theorem C1_envelope_witness :
    (m1rt.length = 1 ∧ envType m1rt = some (.jstr "transcript")) ∧
    (m1rs.length = 1 ∧ envType m1rs = some (.jstr "summary")) ∧
    (m1rq.length = 1 ∧ envType m1rq = some (.jstr "query-response")) ∧
    (m1rse.length = 1 ∧ envType m1rse = some (.jstr "search-results")) ∧
    (m1rc.length = 1 ∧ envType m1rc = some (.jstr "comments")) ∧
    (m1rl.length = 1 ∧ envType m1rl = some (.jstr "stats")) ∧
    (jlookup m2rt "type" = none ∧ jIsObj m2rt = true) ∧
    (jlookup m2rs "type" = none ∧ jIsObj m2rs = true) ∧
    (jlookup m2rq "type" = none ∧ jIsObj m2rq = true) ∧
    (jlookup m2rse "type" = none ∧ jIsObj m2rse = true) ∧
    (jlookup m2rc "type" = none ∧ jIsObj m2rc = true) :=
  ⟨C1_envelope.1 envBase "abc" ["en"] m1rt rfl,
   C1_envelope.2.1 envBase "abc" m1rs rfl,
   C1_envelope.2.2.1 envBase "abc" "what" m1rq rfl,
   C1_envelope.2.2.2.1 envBase "q" 5 m1rse rfl,
   C1_envelope.2.2.2.2.1 envBase "abc" 100 m1rc rfl,
   C1_envelope.2.2.2.2.2.1 envLikes "abc" m1rl rfl,
   C1_envelope.2.2.2.2.2.2.1 envBase "abc" ["en"] "T0" m2rt rfl,
   C1_envelope.2.2.2.2.2.2.2.1 envBase "abc" m2rs rfl,
   C1_envelope.2.2.2.2.2.2.2.2.1 envBase "abc" "what" m2rq rfl,
   C1_envelope.2.2.2.2.2.2.2.2.2.1 envBase "q" 5 m2rse rfl,
   C1_envelope.2.2.2.2.2.2.2.2.2.2 envBase "abc" 100 m2rc rfl⟩

/-- Claim C2 (corrected): the claim asserts the stage-1 `maxResults` is the
clamp of the input to [1, 50], with inputs below 1 raised to 1.  At input 0
the request actually sent carries `maxResults = 0`, not the clamped value
1: the code only caps from above. -/
theorem C2_counterexample :
    (Main1.search_videos envBase "q" 0).2 =
      [.searchEndpoint "snippet" "q" 0 "video" "k"] ∧
    (Main2.search_videos envBase "q" 0).2 =
      [.searchEndpoint "snippet" "q" 0 "video" "k"] ∧
    (0 : Int) ≠ max 1 (min (0 : Int) 50) :=
  ⟨rfl, rfl, by decide⟩

/-- Claim C2 (amended): in both variants the `maxResults` value sent to the
stage-1 search endpoint is `min(max_results, 50)`: inputs above 50 are
silently capped to exactly 50 (not rejected), while inputs below 1 are
passed through unchanged rather than raised to 1. -/
theorem C2_maxResults :
    ∀ (env : Env) (q : String) (mr : Int),
      optFalsy env.YOUTUBE_API_KEY = false →
      (Main1.search_videos env q mr).2.head? =
        some (.searchEndpoint "snippet" q (min mr 50) "video"
              (env.YOUTUBE_API_KEY.getD "")) ∧
      (Main2.search_videos env q mr).2.head? =
        some (.searchEndpoint "snippet" q (min mr 50) "video"
              (env.YOUTUBE_API_KEY.getD "")) ∧
      (50 < mr → min mr 50 = 50) ∧
      (mr < 1 → min mr 50 = mr) := by
  intro env q mr h
  refine ⟨?_, ?_, fun h50 => min_eq_right h50.le, fun h1 => min_eq_left (by omega)⟩
  · unfold Main1.search_videos
    rw [wrapTool_snd]
    unfold Main1.search_core
    rw [if_neg (by simp [h])]
    iterate 5 (all_goals try (first | split | (simp only []; split)))
    all_goals rfl
  · unfold Main2.search_videos
    rw [wrapTool_snd]
    unfold Main2.search_core
    rw [if_neg (by simp [h])]
    iterate 5 (all_goals try (first | split | (simp only []; split)))
    all_goals rfl

/-- Witness for C2: instantiated at input 60 against `envBase` — the
request sent uses 50. -/
theorem C2_maxResults_witness :
    (Main1.search_videos envBase "q" 60).2.head? =
      some (.searchEndpoint "snippet" "q" (min (60 : Int) 50) "video"
            (envBase.YOUTUBE_API_KEY.getD "")) ∧
    (Main2.search_videos envBase "q" 60).2.head? =
      some (.searchEndpoint "snippet" "q" (min (60 : Int) 50) "video"
            (envBase.YOUTUBE_API_KEY.getD "")) ∧
    (50 < (60 : Int) → min (60 : Int) 50 = 50) ∧
    ((60 : Int) < 1 → min (60 : Int) 50 = 60) :=
  C2_maxResults envBase "q" 60 rfl

/-- Claim C3 (confirmed): whenever the stage-1 search response carries no
`error` field and yields zero candidate video IDs, both variants return
successfully with an empty `videos` list and `total_results = 0`, and the
outbound request log contains only the stage-1 request — the stage-2
video-detail endpoint is never called. -/
theorem C3_empty_search :
    ∀ (env : Env) (q : String) (mr : Int) (key : String),
      env.YOUTUBE_API_KEY = some key →
      key.isEmpty = false →
      jcontains (env.http (.searchEndpoint "snippet" q (min mr 50) "video" key))
        "error" = false →
      Main1.stage1_ids (env.http (.searchEndpoint "snippet" q (min mr 50) "video" key)) =
        .ok [] →
      Main1.search_videos env q mr =
        (.ok [.jobj [("type", .jstr "search-results"),
                     ("data", .jobj [("query", .jstr q),
                                     ("videos", .jarr []),
                                     ("total_results", .jnum 0)])]],
         [.searchEndpoint "snippet" q (min mr 50) "video" key]) ∧
      Main2.search_videos env q mr =
        (.ok (.jobj [("query", .jstr q),
                     ("videos", .jarr []),
                     ("total_results", .jnum 0)]),
         [.searchEndpoint "snippet" q (min mr 50) "video" key]) := by
  intro env q mr key hkey hke hc hids
  constructor
  · unfold Main1.search_videos wrapTool Main1.search_core
    rw [hkey]
    simp [optFalsy, hke, hc, hids, Main1.searchEnvelope, Except.mapError]
  · unfold Main2.search_videos wrapTool Main2.search_core
    rw [hkey]
    simp [optFalsy, hke, hc, hids, Main2.searchResult, Except.mapError]

/-- Witness for C3: against `envBase` (whose HTTP oracle answers `{}`), a
search yields zero candidates and only the stage-1 request is issued. -/
theorem C3_empty_search_witness :
    Main1.search_videos envBase "q" 7 =
      (.ok [.jobj [("type", .jstr "search-results"),
                   ("data", .jobj [("query", .jstr "q"),
                                   ("videos", .jarr []),
                                   ("total_results", .jnum 0)])]],
       [.searchEndpoint "snippet" "q" (min (7 : Int) 50) "video" "k"]) ∧
    Main2.search_videos envBase "q" 7 =
      (.ok (.jobj [("query", .jstr "q"),
                   ("videos", .jarr []),
                   ("total_results", .jnum 0)]),
       [.searchEndpoint "snippet" "q" (min (7 : Int) 50) "video" "k"]) :=
  C3_empty_search envBase "q" 7 "k" rfl rfl rfl rfl

theorem Main2.transcript_resource_log (env : Env) (v : String) :
    (Main2.transcript_resource env v).2 = [.captions v ["en"]] := by
  unfold Main2.transcript_resource
  split <;> rfl

theorem Main2.video_metadata_resource_noGen (env : Env) (v : String) :
    ∀ r ∈ (Main2.video_metadata_resource env v).2, isGenerate r = false := by
  unfold Main2.video_metadata_resource
  split
  · simp
  · simp only []
    split <;> simp [isGenerate]

theorem Main2.summary_prompt_noGen (env : Env) (v : String) :
    ∀ r ∈ (Main2.summary_prompt env v).2, isGenerate r = false := by
  unfold Main2.summary_prompt
  split
  next e log heq =>
    have hlog : log = (Main2.transcript_resource env v).2 := by rw [heq]
    rw [hlog, Main2.transcript_resource_log]
    simp [isGenerate]
  next t log heq =>
    have hlog : log = (Main2.transcript_resource env v).2 := by rw [heq]
    intro r hr
    simp only [] at hr
    rcases List.mem_append.mp hr with h1 | h2
    · rw [hlog, Main2.transcript_resource_log] at h1
      simp at h1; subst h1; rfl
    · exact Main2.video_metadata_resource_noGen env v r h2

theorem Main2.query_prompt_noGen (env : Env) (v q : String) :
    ∀ r ∈ (Main2.query_prompt env v q).2, isGenerate r = false := by
  unfold Main2.query_prompt
  split
  next e log heq =>
    have hlog : log = (Main2.transcript_resource env v).2 := by rw [heq]
    rw [hlog, Main2.transcript_resource_log]
    simp [isGenerate]
  next t log heq =>
    have hlog : log = (Main2.transcript_resource env v).2 := by rw [heq]
    intro r hr
    simp only [] at hr
    rcases List.mem_append.mp hr with h1 | h2
    · rw [hlog, Main2.transcript_resource_log] at h1
      simp at h1; subst h1; rfl
    · exact Main2.video_metadata_resource_noGen env v r h2

/-- Claim C4 (corrected): the claim asserts that with no generation
credential configured, summarize fails before any outbound network call in
both variants.  In `main_2.py` the summarize tool builds its prompt first:
with the generation key absent it still performs the outbound captions
fetch (one request in the log) before failing the credential check. -/
theorem C4_counterexample :
    (Main2.summarize_transcript envNoGem "v").1 =
      .error "Summarization failed: GEMINI_API_KEY environment variable is not set or client not initialized" ∧
    (Main2.summarize_transcript envNoGem "v").2 = [.captions "v" ["en"]] ∧
    [Request.captions "v" ["en"]] ≠ ([] : List Request) :=
  ⟨rfl, rfl, by simp⟩

/-- Claim C4 (amended): with no generation credential configured,
summarize and query fail with the configuration error in both variants and
never reach the generation endpoint (zero generation calls); in `main.py`
the check happens first, so no outbound call of any kind is made, while in
`main_2.py` the transcript/metadata fetches of the prompt-building step may
happen before the check. -/
theorem C4_config_check :
    ∀ (env : Env) (v q : String), optFalsy env.GEMINI_API_KEY = true →
      Main1.summarize_transcript env v =
        (.error "Summarization error: GEMINI_API_KEY environment variable is not set", []) ∧
      Main1.query_transcript env v q =
        (.error "Query error: GEMINI_API_KEY environment variable is not set", []) ∧
      (Main2.summarize_transcript env v).1 =
        .error "Summarization failed: GEMINI_API_KEY environment variable is not set or client not initialized" ∧
      (Main2.query_transcript env v q).1 =
        .error "Query failed: GEMINI_API_KEY environment variable is not set or client not initialized" ∧
      (∀ r ∈ (Main2.summarize_transcript env v).2, isGenerate r = false) ∧
      (∀ r ∈ (Main2.query_transcript env v q).2, isGenerate r = false) := by
  intro env v q h
  refine ⟨?_, ?_, ?_, ?_, ?_, ?_⟩
  · unfold Main1.summarize_transcript wrapTool Main1.summarize_core
    simp [h, Except.mapError]
  · unfold Main1.query_transcript wrapTool Main1.query_core
    simp [h, Except.mapError]
  · unfold Main2.summarize_transcript wrapTool Main2.summarize_core
    simp [h, Except.mapError]
  · unfold Main2.query_transcript wrapTool Main2.query_core
    simp [h, Except.mapError]
  · unfold Main2.summarize_transcript wrapTool Main2.summarize_core
    simp only [h, if_true]
    exact fun r hr => Main2.summary_prompt_noGen env v r hr
  · unfold Main2.query_transcript wrapTool Main2.query_core
    simp only [h, if_true]
    exact fun r hr => Main2.query_prompt_noGen env v q r hr

/-- Witness for C4: instantiated at `envNoGem` (no credentials). -/
theorem C4_config_check_witness :
    Main1.summarize_transcript envNoGem "v" =
      (.error "Summarization error: GEMINI_API_KEY environment variable is not set", []) ∧
    (Main2.summarize_transcript envNoGem "v").1 =
      .error "Summarization failed: GEMINI_API_KEY environment variable is not set or client not initialized" :=
  ⟨(C4_config_check envNoGem "v" "x" rfl).1,
   (C4_config_check envNoGem "v" "x" rfl).2.2.1⟩

theorem Main1.build_video_stats (item r : JValue)
    (h : Main1.build_video item = .ok r) :
    ∃ stats views likes comments,
      jlookup item "statistics" = some stats ∧
      jget stats "viewCount" (.jstr "0") = .ok views ∧
      jget stats "likeCount" (.jstr "0") = .ok likes ∧
      jget stats "commentCount" (.jstr "0") = .ok comments ∧
      jlookup r "views" = some views ∧
      jlookup r "likes" = some likes ∧
      jlookup r "comments" = some comments := by
  unfold Main1.build_video at h
  simp only [except_bind_ok] at h
  obtain ⟨idv, h1, snip, h2, title, h3, desc, h4, thumbs, h5, high, h6, thumb,
    h7, ct, h8, ci, h9, pa, h10, stats, h11, views, h12, likes, h13, comments,
    h14, cd, h15, dur, h16, h⟩ := h
  injection h with h
  subst h
  exact ⟨stats, views, likes, comments, jindex_eq_ok.mp h11, h12, h13, h14,
    rfl, rfl, rfl⟩

theorem Main2.build_video_stats2 (item r : JValue)
    (h : Main2.build_video item = .ok r) :
    ∃ stats views likes comments,
      jlookup item "statistics" = some stats ∧
      jget stats "viewCount" (.jstr "0") = .ok views ∧
      jget stats "likeCount" (.jstr "0") = .ok likes ∧
      jget stats "commentCount" (.jstr "0") = .ok comments ∧
      nestedField r "stats" "views" = some views ∧
      nestedField r "stats" "likes" = some likes ∧
      nestedField r "stats" "comments" = some comments := by
  unfold Main2.build_video at h
  simp only [except_bind_ok] at h
  obtain ⟨idv, h1, snip, h2, title, h3, desc, h4, stats, h5, views, h6, likes,
    h7, comments, h8, cd, h9, dur, h10, ct, h11, ci, h12, pa, h13, h⟩ := h
  injection h with h
  subst h
  exact ⟨stats, views, likes, comments, jindex_eq_ok.mp h5, h6, h7, h8,
    rfl, rfl, rfl⟩

/-- Claim C5 (corrected): the claim says a missing statistics count always
defaults to the string "0", in search and in get-likes alike.  In get-likes
the default is actually the number 0 (`.get('likeCount', 0)`), not the
string "0": on a detail response whose single item has an empty statistics
object, get-likes succeeds with `likes` equal to the JSON number 0. -/
theorem C5_counterexample :
    (Main1.get_likes envLikes "v").1 =
      .ok [.jobj [("type", .jstr "stats"),
                  ("data", .jobj [("video_id", .jstr "v"),
                                  ("likes", .jnum 0)])]] ∧
    statField (.jobj [("statistics", .jobj [])]) "likeCount" = none ∧
    JValue.jnum 0 ≠ JValue.jstr "0" :=
  ⟨rfl, rfl, fun hh => JValue.noConfusion hh⟩

/-- Claim C5 (amended): in the search enrichment of both variants a
statistics count missing from the provider's video-detail item defaults to
the string "0"; in get-likes a missing like count defaults to the number 0
instead. -/
theorem C5_stats_defaults :
    (∀ item r, Main1.build_video item = .ok r →
       (statField item "viewCount" = none →
          jlookup r "views" = some (.jstr "0")) ∧
       (statField item "likeCount" = none →
          jlookup r "likes" = some (.jstr "0")) ∧
       (statField item "commentCount" = none →
          jlookup r "comments" = some (.jstr "0"))) ∧
    (∀ item r, Main2.build_video item = .ok r →
       (statField item "viewCount" = none →
          nestedField r "stats" "views" = some (.jstr "0")) ∧
       (statField item "likeCount" = none →
          nestedField r "stats" "likes" = some (.jstr "0")) ∧
       (statField item "commentCount" = none →
          nestedField r "stats" "comments" = some (.jstr "0"))) ∧
    (∀ env v r item, (Main1.get_likes env v).1 = .ok r →
       firstItem (env.http (.videosEndpoint "statistics" v
         (env.YOUTUBE_API_KEY.getD ""))) = some item →
       statField item "likeCount" = none →
       dataField r "likes" = some (.jnum 0)) := by
  refine ⟨?_, ?_, ?_⟩
  · intro item r h
    obtain ⟨stats, views, likes, comments, hs, hv, hl, hc, rv, rl, rc⟩ :=
      Main1.build_video_stats item r h
    refine ⟨fun hn => ?_, fun hn => ?_, fun hn => ?_⟩
    · simp only [statField, hs, Option.bind] at hn
      rw [rv, jget_ok_none hv hn]
    · simp only [statField, hs, Option.bind] at hn
      rw [rl, jget_ok_none hl hn]
    · simp only [statField, hs, Option.bind] at hn
      rw [rc, jget_ok_none hc hn]
  · intro item r h
    obtain ⟨stats, views, likes, comments, hs, hv, hl, hc, rv, rl, rc⟩ :=
      Main2.build_video_stats2 item r h
    refine ⟨fun hn => ?_, fun hn => ?_, fun hn => ?_⟩
    · simp only [statField, hs, Option.bind] at hn
      rw [rv, jget_ok_none hv hn]
    · simp only [statField, hs, Option.bind] at hn
      rw [rl, jget_ok_none hl hn]
    · simp only [statField, hs, Option.bind] at hn
      rw [rc, jget_ok_none hc hn]
  · intro env v r item h hfi hsf
    unfold Main1.get_likes at h
    rw [wrapTool_fst, mapError_eq_ok] at h
    unfold Main1.get_likes_core at h
    split at h
    · exact Except.noConfusion h
    · simp only [] at h
      split at h
      · simp only [] at h
        unfold apiErrorResult at h
        split at h <;> exact Except.noConfusion h
      · split at h
        next e heq => exact Except.noConfusion h
        next itemsv heq =>
          split at h
          · exact Except.noConfusion h
          · split at h
            next e heq2 => exact Except.noConfusion h
            next likeval heq2 =>
              simp only [] at h
              injection h with h
              subst h
              simp only [except_bind_ok] at heq2
              obtain ⟨items, hi, first, hf, stats, hs, hlast⟩ := heq2
              unfold firstItem at hfi
              rw [jindex_eq_ok.mp hi] at hfi
              simp only [Option.bind] at hfi
              rw [jat_zero_head hf] at hfi
              injection hfi with hfi
              subst hfi
              simp only [statField, jindex_eq_ok.mp hs, Option.bind] at hsf
              rw [jget_ok_none hlast hsf]
              rfl

/-- Witness for C5: concrete items with empty statistics in both variants,
and a concrete get-likes run. -/
theorem C5_stats_defaults_witness :
    jlookup item0r1 "views" = some (.jstr "0") ∧
    nestedField item0r2 "stats" "views" = some (.jstr "0") ∧
    dataField m1rl "likes" = some (.jnum 0) :=
  ⟨(C5_stats_defaults.1 item0 item0r1 rfl).1 rfl,
   (C5_stats_defaults.2.1 item0 item0r2 rfl).1 rfl,
   C5_stats_defaults.2.2 envLikes "abc" m1rl (.jobj [("statistics", .jobj [])])
     rfl rfl rfl⟩

/-- Claim C6 (confirmed): a get-likes invocation whose video-detail
response has no `error` field and an empty `items` list fails with the
not-found error, whose message carries the requested video ID. -/
theorem C6_likes_not_found :
    ∀ (env : Env) (v key : String),
      env.YOUTUBE_API_KEY = some key →
      key.isEmpty = false →
      jcontains (env.http (.videosEndpoint "statistics" v key)) "error" = false →
      jlookup (env.http (.videosEndpoint "statistics" v key)) "items" =
        some (.jarr []) →
      Main1.get_likes env v =
        (.error ("Likes error: Video not found: " ++ v),
         [.videosEndpoint "statistics" v key]) := by
  intro env v key hkey hke hc hitems
  unfold Main1.get_likes wrapTool Main1.get_likes_core
  rw [hkey]
  have hj : jget (env.http (.videosEndpoint "statistics" v key)) "items" .jnull =
      .ok (.jarr []) := jget_of_lookup hitems
  simp [optFalsy, hke, hc, hj, jtruthy, Except.mapError]
  rfl

/-- Witness for C6: concrete environment whose detail endpoint returns an
empty `items` list. -/
theorem C6_likes_not_found_witness :
    Main1.get_likes envEmptyItems "abc" =
      (.error "Likes error: Video not found: abc",
       [.videosEndpoint "statistics" "abc" "k"]) :=
  C6_likes_not_found envEmptyItems "abc" "k" rfl rfl rfl rfl

theorem Main1.extractTexts_toJ (segs : List Segment) :
    Main1.extractTexts (segs.map Segment.toJ) =
      .ok ((segs.map Segment.text).map JValue.jstr) := by
  induction segs with
  | nil => rfl
  | cons a t ih =>
    simp only [List.map_cons, Main1.extractTexts]
    rw [show jindex (Segment.toJ a) "text" = Except.ok (JValue.jstr a.text) from rfl, ih]

theorem Main1.joinedTranscript_envelope (v : String) (ls : List String)
    (segs : List Segment) :
    Main1.joinedTranscript
      [.jobj [("type", .jstr "transcript"),
              ("data", .jobj [("video_id", .jstr v),
                              ("segments", .jarr (segs.map Segment.toJ)),
                              ("languages", .jarr (ls.map JValue.jstr))])]] =
      .ok (String.intercalate " " (segs.map Segment.text)) := by
  unfold Main1.joinedTranscript
  simp only [except_bind_ok]
  exact ⟨_, rfl, _, rfl, _, rfl, _, rfl, _, Main1.extractTexts_toJ segs,
    _, asPyStrings_jstr _, rfl⟩

theorem Main1.get_transcript_ok_eq (env : Env) (v : String) (ls : List String)
    (segs : List Segment) (ht : env.transcriptApi v ls = .ok segs) :
    Main1.get_transcript env v ls =
      (.ok [.jobj [("type", .jstr "transcript"),
                   ("data", .jobj [("video_id", .jstr v),
                                   ("segments", .jarr (segs.map Segment.toJ)),
                                   ("languages", .jarr (ls.map JValue.jstr))])]],
       [.captions v ls]) := by
  unfold Main1.get_transcript wrapTool
  rw [ht]
  rfl

/-- Claim C7 (confirmed): a successful `main.py` summarize joins the
transcript segment texts with single spaces into the fixed 3–5-bullet-point
instruction, sends exactly that prompt to the generation endpoint, and
returns the summary envelope with the generated text and the fixed model
identifier. -/
theorem C7_summarize_prompt :
    ∀ (env : Env) (v s : String) (segs : List Segment),
      optFalsy env.GEMINI_API_KEY = false →
      env.transcriptApi v ["en"] = .ok segs →
      env.genText "gemini-2.0-flash"
        (Main1.mkContents
          ("Summarize this YouTube video transcript in 3-5 bullet points:\n\n"
            ++ String.intercalate " " (segs.map Segment.text))) = some s →
      s.isEmpty = false →
      Main1.summarize_transcript env v =
        (.ok [.jobj [("type", .jstr "summary"),
                     ("data", .jobj [("video_id", .jstr v),
                                     ("summary", .jstr s),
                                     ("model", .jstr "gemini-2.0-flash")])]],
         [.captions v ["en"],
          .generate "gemini-2.0-flash"
            (Main1.mkContents
              ("Summarize this YouTube video transcript in 3-5 bullet points:\n\n"
                ++ String.intercalate " " (segs.map Segment.text)))]) := by
  intro env v s segs hg ht hgen hs
  unfold Main1.summarize_transcript wrapTool Main1.summarize_core
  rw [if_neg (by simp [hg])]
  rw [Main1.get_transcript_ok_eq env v ["en"] segs ht]
  simp only []
  rw [Main1.joinedTranscript_envelope]
  simp only []
  rw [hgen]
  simp [hs, Except.mapError]

/-- Witness for C7: the spec's concrete test vector — transcript
`[{text:"Hello"},{text:"world"}]`, generation client answering
`"- point one"`, `summarize("abc123")`. -/
theorem C7_summarize_witness :
    Main1.summarize_transcript envBase "abc123" =
      (.ok [.jobj [("type", .jstr "summary"),
                   ("data", .jobj [("video_id", .jstr "abc123"),
                                   ("summary", .jstr "- point one"),
                                   ("model", .jstr "gemini-2.0-flash")])]],
       [.captions "abc123" ["en"],
        .generate "gemini-2.0-flash"
          (Main1.mkContents
            "Summarize this YouTube video transcript in 3-5 bullet points:\n\nHello world")]) :=
  C7_summarize_prompt envBase "abc123" "- point one"
    [⟨"Hello", 0, 1⟩, ⟨"world", 1, 1⟩] rfl rfl rfl rfl

/-- Claim C8 (confirmed): whenever the captions source raises, both
variants fail with a single tool-level error whose message is the
operation-naming prefix followed by the upstream exception message
verbatim. -/
theorem C8_transcript_error :
    ∀ (env : Env) (v : String) (ls : List String) (e now : String),
      env.transcriptApi v ls = .error e →
      (Main1.get_transcript env v ls).1 =
        .error ("Transcript error: " ++ e) ∧
      (Main2.get_transcript env v ls now).1 =
        .error ("Failed to retrieve transcript: " ++ e) := by
  intro env v ls e now h
  constructor
  · unfold Main1.get_transcript wrapTool
    rw [h]
    rfl
  · unfold Main2.get_transcript
    rw [h]

/-- Witness for C8: a captions source raising "no element found". -/
theorem C8_transcript_error_witness :
    (Main1.get_transcript envErrT "abc" ["en"]).1 =
      .error "Transcript error: no element found" ∧
    (Main2.get_transcript envErrT "abc" ["en"] "T0").1 =
      .error "Failed to retrieve transcript: no element found" :=
  C8_transcript_error envErrT "abc" ["en"] "no element found" "T0" rfl

/-- Claim C9 (confirmed): the segments returned by get-transcript are a
pure function of the input and the upstream captions response alone: two
runs against environments that agree on the captions oracle (even at
different clock readings and with every other collaborator different)
produce identical results in `main.py` and identical `segments` fields in
`main_2.py` — there is no caching and no mutation. -/
theorem C9_transcript_determinism :
    ∀ (env env' : Env) (v : String) (ls : List String) (now now' : String),
      env.transcriptApi v ls = env'.transcriptApi v ls →
      Main1.get_transcript env v ls = Main1.get_transcript env' v ls ∧
      ((Main2.get_transcript env v ls now).1.map (fun r => jlookup r "segments")) =
        ((Main2.get_transcript env' v ls now').1.map (fun r => jlookup r "segments")) := by
  intro env env' v ls now now' h
  constructor
  · unfold Main1.get_transcript wrapTool
    rw [h]
  · unfold Main2.get_transcript
    rw [h]
    cases env'.transcriptApi v ls <;> rfl

/-- Witness for C9: `envBase` and `envOther` share only the captions
oracle; the segments agree across different timestamps. -/
theorem C9_transcript_determinism_witness :
    Main1.get_transcript envBase "abc" ["en"] =
      Main1.get_transcript envOther "abc" ["en"] ∧
    ((Main2.get_transcript envBase "abc" ["en"] "T0").1.map
        (fun r => jlookup r "segments")) =
      ((Main2.get_transcript envOther "abc" ["en"] "T1").1.map
        (fun r => jlookup r "segments")) :=
  C9_transcript_determinism envBase envOther "abc" ["en"] "T0" "T1" rfl

theorem Main1.extractIds_length {l ids : List JValue}
    (h : Main1.extractIds l = .ok ids) : ids.length = l.length := by
  induction l generalizing ids with
  | nil =>
    simp only [Main1.extractIds] at h
    injection h with h
    subst h; rfl
  | cons a t ih =>
    simp only [Main1.extractIds] at h
    split at h
    · exact Except.noConfusion h
    · split at h
      · exact Except.noConfusion h
      next xs heq =>
        injection h with h
        subst h
        simp [ih heq]

theorem Main1.buildAll_length {l vs : List JValue}
    (h : Main1.buildAll l = .ok vs) : vs.length = l.length := by
  induction l generalizing vs with
  | nil =>
    simp only [Main1.buildAll] at h
    injection h with h
    subst h; rfl
  | cons a t ih =>
    simp only [Main1.buildAll] at h
    split at h
    · exact Except.noConfusion h
    · split at h
      · exact Except.noConfusion h
      next xs heq =>
        injection h with h
        subst h
        simp [ih heq]

theorem Main2.buildAll_length2 {l vs : List JValue}
    (h : Main2.buildAll l = .ok vs) : vs.length = l.length := by
  induction l generalizing vs with
  | nil =>
    simp only [Main2.buildAll] at h
    injection h with h
    subst h; rfl
  | cons a t ih =>
    simp only [Main2.buildAll] at h
    split at h
    · exact Except.noConfusion h
    · split at h
      · exact Except.noConfusion h
      next xs heq =>
        injection h with h
        subst h
        simp [ih heq]

theorem Main1.stage1_ids_itemsLen {data : JValue} {ids : List JValue}
    (h : Main1.stage1_ids data = .ok ids) : ids.length = itemsLen data := by
  unfold Main1.stage1_ids at h
  simp only [except_bind_ok] at h
  obtain ⟨items, hg, l, he, hx⟩ := h
  cases data
  case jobj kvs =>
    simp only [jget] at hg
    injection hg with hg
    cases hkv : kvs.lookup "items" with
    | none =>
      rw [hkv] at hg
      simp only [Option.getD] at hg
      subst hg
      simp only [jelems] at he
      injection he with he
      subst he
      simp only [Main1.extractIds] at hx
      injection hx with hx
      subst hx
      simp [itemsLen, jlookup, hkv]
    | some x =>
      rw [hkv] at hg
      simp only [Option.getD] at hg
      subst hg
      cases x
      case jarr l2 =>
        simp only [jelems] at he
        injection he with he
        subst he
        simp [itemsLen, jlookup, hkv, Main1.extractIds_length hx]
      all_goals exact Except.noConfusion he
  all_goals exact Except.noConfusion hg

theorem Main1.stage2_videos_itemsLen {data : JValue} {vs : List JValue}
    (h : Main1.stage2_videos data = .ok vs) : vs.length = itemsLen data := by
  unfold Main1.stage2_videos at h
  simp only [except_bind_ok] at h
  obtain ⟨items, hg, l, he, hx⟩ := h
  cases data
  case jobj kvs =>
    simp only [jget] at hg
    injection hg with hg
    cases hkv : kvs.lookup "items" with
    | none =>
      rw [hkv] at hg
      simp only [Option.getD] at hg
      subst hg
      simp only [jelems] at he
      injection he with he
      subst he
      simp only [Main1.buildAll] at hx
      injection hx with hx
      subst hx
      simp [itemsLen, jlookup, hkv]
    | some x =>
      rw [hkv] at hg
      simp only [Option.getD] at hg
      subst hg
      cases x
      case jarr l2 =>
        simp only [jelems] at he
        injection he with he
        subst he
        simp [itemsLen, jlookup, hkv, Main1.buildAll_length hx]
      all_goals exact Except.noConfusion he
  all_goals exact Except.noConfusion hg

theorem Main2.stage2_videos_itemsLen2 {data : JValue} {vs : List JValue}
    (h : Main2.stage2_videos data = .ok vs) : vs.length = itemsLen data := by
  unfold Main2.stage2_videos at h
  simp only [except_bind_ok] at h
  obtain ⟨items, hg, l, he, hx⟩ := h
  cases data
  case jobj kvs =>
    simp only [jget] at hg
    injection hg with hg
    cases hkv : kvs.lookup "items" with
    | none =>
      rw [hkv] at hg
      simp only [Option.getD] at hg
      subst hg
      simp only [jelems] at he
      injection he with he
      subst he
      simp only [Main2.buildAll] at hx
      injection hx with hx
      subst hx
      simp [itemsLen, jlookup, hkv]
    | some x =>
      rw [hkv] at hg
      simp only [Option.getD] at hg
      subst hg
      cases x
      case jarr l2 =>
        simp only [jelems] at he
        injection he with he
        subst he
        simp [itemsLen, jlookup, hkv, Main2.buildAll_length2 hx]
      all_goals exact Except.noConfusion he
  all_goals exact Except.noConfusion hg

/-- Claim C10 (confirmed): in both variants a successful search reports
`total_results` equal to the length of the returned `videos` list (the
stage-2 enriched items), not the provider's total match count; and whenever
the upstream honours the request sizes (stage 1 returns at most the
`maxResults` it was sent, stage 2 at most one item per requested ID), that
count never exceeds the clamped `maxResults`. -/
theorem C10_total_results :
    (∀ (env : Env) (q : String) (mr : Int) (r : List JValue),
       (Main1.search_videos env q mr).1 = .ok r →
       totalMatchesLen1 r ∧
       ((∀ ids : List String,
           itemsLen (env.http (.videosEndpoint "snippet,statistics,contentDetails"
             (String.intercalate "," ids) (env.YOUTUBE_API_KEY.getD ""))) ≤ ids.length) →
        itemsLen (env.http (.searchEndpoint "snippet" q (min mr 50) "video"
          (env.YOUTUBE_API_KEY.getD ""))) ≤ (min mr 50).toNat →
        (videosLen1 r : Int) ≤ max 1 (min mr 50))) ∧
    (∀ (env : Env) (q : String) (mr : Int) (r : JValue),
       (Main2.search_videos env q mr).1 = .ok r →
       totalMatchesLen r ∧
       ((∀ ids : List String,
           itemsLen (env.http (.videosEndpoint "snippet,statistics,contentDetails"
             (String.intercalate "," ids) (env.YOUTUBE_API_KEY.getD ""))) ≤ ids.length) →
        itemsLen (env.http (.searchEndpoint "snippet" q (min mr 50) "video"
          (env.YOUTUBE_API_KEY.getD ""))) ≤ (min mr 50).toNat →
        (videosLen r : Int) ≤ max 1 (min mr 50))) := by
  constructor
  · intro env q mr r h
    unfold Main1.search_videos at h
    rw [wrapTool_fst, mapError_eq_ok] at h
    unfold Main1.search_core at h
    split at h
    · exact Except.noConfusion h
    · simp only [] at h
      split at h
      · simp only [] at h
        unfold apiErrorResult at h
        split at h <;> exact Except.noConfusion h
      · split at h
        next e heq1 => exact Except.noConfusion h
        next video_ids heq1 =>
          split at h
          · simp only [] at h
            injection h with h
            subst h
            refine ⟨rfl, fun _ _ => ?_⟩
            have hp : videosLen1 (Main1.searchEnvelope q []) = 0 := rfl
            rw [hp]
            omega
          · split at h
            next e heq2 => exact Except.noConfusion h
            next idStrs heq2 =>
              split at h
              next e heq3 => exact Except.noConfusion h
              next videos heq3 =>
                simp only [] at h
                injection h with h
                subst h
                refine ⟨rfl, fun hDetail hStage1 => ?_⟩
                have l2 := Main1.stage2_videos_itemsLen heq3
                have l3 := hDetail idStrs
                have l4 := asPyStrings_length heq2
                have l5 := Main1.stage1_ids_itemsLen heq1
                have hp : videosLen1 (Main1.searchEnvelope q videos) = videos.length := rfl
                rw [hp]
                omega
  · intro env q mr r h
    unfold Main2.search_videos at h
    rw [wrapTool_fst, mapError_eq_ok] at h
    unfold Main2.search_core at h
    split at h
    · exact Except.noConfusion h
    · simp only [] at h
      split at h
      · simp only [] at h
        unfold apiErrorResult at h
        split at h <;> exact Except.noConfusion h
      · split at h
        next e heq1 => exact Except.noConfusion h
        next video_ids heq1 =>
          split at h
          · simp only [] at h
            injection h with h
            subst h
            refine ⟨rfl, fun _ _ => ?_⟩
            have hp : videosLen (Main2.searchResult q []) = 0 := rfl
            rw [hp]
            omega
          · split at h
            next e heq2 => exact Except.noConfusion h
            next idStrs heq2 =>
              split at h
              next e heq3 => exact Except.noConfusion h
              next videos heq3 =>
                simp only [] at h
                injection h with h
                subst h
                refine ⟨rfl, fun hDetail hStage1 => ?_⟩
                have l2 := Main2.stage2_videos_itemsLen2 heq3
                have l3 := hDetail idStrs
                have l4 := asPyStrings_length heq2
                have l5 := Main1.stage1_ids_itemsLen heq1
                have hp : videosLen (Main2.searchResult q videos) = videos.length := rfl
                rw [hp]
                omega

/-- Witness for C10: a concrete search against `envBase` (zero candidates):
the reported total matches the (empty) list and respects the clamp. -/
theorem C10_total_results_witness :
    totalMatchesLen1 m1rse ∧ totalMatchesLen m2rse ∧
    (videosLen1 m1rse : Int) ≤ max 1 (min (5 : Int) 50) ∧
    (videosLen m2rse : Int) ≤ max 1 (min (5 : Int) 50) :=
  ⟨(C10_total_results.1 envBase "q" 5 m1rse rfl).1,
   (C10_total_results.2 envBase "q" 5 m2rse rfl).1,
   (C10_total_results.1 envBase "q" 5 m1rse rfl).2
     (fun ids => Nat.zero_le ids.length) (Nat.zero_le _),
   (C10_total_results.2 envBase "q" 5 m2rse rfl).2
     (fun ids => Nat.zero_le ids.length) (Nat.zero_le _)⟩
